import Mathlib

/-!
Verification of the dispatcher bot matching-and-dispatch engine
(src/index.ts) against its natural-language specification.

The engine state (worker registry, active request store) and the four
state-transition handlers (handleDriverAvailability, handleRequest,
processRequests, handleAccept) are shallowly embedded as pure Lean
functions: JavaScript Map objects become insertion-ordered association
lists, outbound DM sends become an explicit output list of
(recipient, message) pairs, and the ambient clock becomes an explicit
now parameter.  The haversine distance (getDistance) is modelled over
the real numbers; because no state-level claim depends on the numeric
value of a distance, the state-level functions take the distance
function as a parameter.
-/

namespace Dispatcher

/-- Worker status as stored in the registry. -/
inductive DriverStatus where
  | AVAILABLE
  | UNAVAILABLE
deriving DecidableEq, Repr

/-- Worker class: drivers take rides, livreurs take deliveries. -/
inductive WorkerType where
  | DRIVERS
  | LIVREURS
deriving DecidableEq, Repr

/-- Request kind. -/
inductive ReqKind where
  | RIDE
  | DELIVERY
deriving DecidableEq, Repr

/-- Request lifecycle status. -/
inductive ReqStatus where
  | PENDING
  | ASSIGNED
deriving DecidableEq, Repr

/-- A latitude/longitude pair; coordinates are modelled as rationals. -/
structure Coord where
  latitude : ℚ
  longitude : ℚ
deriving DecidableEq, Repr

/-- The fields of an inbound JSON payload that the handlers read. -/
structure Payload where
  type : String
  orderId : String
  status : DriverStatus
  location : Option Coord
  pickup : Option Coord
  deliveryLocation : Option Coord
deriving DecidableEq, Repr

/-- A worker registry record (interface DriverState in the source). -/
structure DriverState where
  status : DriverStatus
  location : Option Coord
  lastSeen : ℕ
  type : WorkerType
  did : String
deriving DecidableEq, Repr

/-- A candidate: a worker id paired with its distance from the origin. -/
structure Candidate where
  did : String
  distance : ℚ
deriving DecidableEq, Repr

/-- An active request (interface ActiveRequest in the source). -/
structure ActiveRequest where
  id : String
  type : ReqKind
  status : ReqStatus
  customerDid : String
  candidates : List Candidate
  nextCandidateIndex : ℕ
  notifiedDrivers : List String
  data : Payload
  timestamp : ℕ
  lastNotificationTime : ℕ
deriving DecidableEq, Repr

/-- The structured outbound DM messages the bot sends. -/
inductive OutMsg where
  | noDriversAvailable (orderId : String)
  | offer (data : Payload)
  | orderAssigned (orderId : String) (driverDid : String)
      (driverLocation : Option Coord)
  | orderTakenByOther (orderId : String)
  | orderConfirmed (orderId : String) (customerDid : String) (data : Payload)
  | orderAlreadyTaken (orderId : String)
deriving DecidableEq, Repr

/-- The dispatch interval DISPATCH_INTERVAL_MS (30 seconds). -/
def DISPATCH_INTERVAL_MS : ℕ := 30000

/-- Insertion-ordered map (JavaScript Map) as an association list. -/
abbrev DriversMap : Type := List (String × DriverState)

/-- The active request store, keyed by order id. -/
abbrev RequestsMap : Type := List (String × ActiveRequest)

/-- Map.get: first value bound to the key, if any. -/
def mapGet {α : Type} (m : List (String × α)) (k : String) : Option α :=
  (m.find? (fun p => p.1 == k)).map (fun p => p.2)

/-- Map.set: overwrite in place if the key exists (keeping its position,
as a JavaScript Map does), otherwise append. -/
def mapSet {α : Type} (m : List (String × α)) (k : String) (v : α) :
    List (String × α) :=
  match m with
  | [] => [(k, v)]
  | p :: t => if p.1 == k then (k, v) :: t else p :: mapSet t k v

/-- JavaScript a || b on optional numbers: a number is falsy exactly
when it is 0 (or the value is absent), in which case b is returned. -/
def jsOr (a b : Option ℚ) : Option ℚ :=
  match a with
  | some x => if x = 0 then b else some x
  | none => b

/-- JavaScript truthiness of an optional number: present and nonzero. -/
def truthyNum (o : Option ℚ) : Bool :=
  match o with
  | some x => decide (x ≠ 0)
  | none => false

/-- The resolved request origin latitude:
payload.pickup?.latitude || payload.deliveryLocation?.latitude. -/
def resolvedLat (payload : Payload) : Option ℚ :=
  jsOr (payload.pickup.map (fun c => c.latitude))
       (payload.deliveryLocation.map (fun c => c.latitude))

/-- The resolved request origin longitude:
payload.pickup?.longitude || payload.deliveryLocation?.longitude. -/
def resolvedLon (payload : Payload) : Option ℚ :=
  jsOr (payload.pickup.map (fun c => c.longitude))
       (payload.deliveryLocation.map (fun c => c.longitude))

/-- The candidate comparison (a, b) => a.distance - b.distance used by
the sort in handleRequest: ascending distance. -/
def candLE (a b : Candidate) : Prop := a.distance ≤ b.distance

instance : DecidableRel candLE :=
  fun a b => inferInstanceAs (Decidable (a.distance ≤ b.distance))

instance : IsTotal Candidate candLE :=
  ⟨fun a b => le_total a.distance b.distance⟩

instance : IsTrans Candidate candLE :=
  ⟨fun _ _ _ hab hbc => le_trans hab hbc⟩

/-- The candidate computation inside handleRequest: filter the registry
values (in insertion order) to workers of the requested class that are
AVAILABLE and have a location, pair each with its distance from the
origin, and sort ascending by distance.  The numeric distance function
is a parameter. -/
def computeCandidates (dist : ℚ → ℚ → ℚ → ℚ → ℚ) (drivers : DriversMap)
    (reqType : WorkerType) (lat lon : ℚ) : List Candidate :=
  List.insertionSort candLE
    (((drivers.map (fun p => p.2)).filter
        (fun d => decide (d.type = reqType) &&
                  decide (d.status = DriverStatus.AVAILABLE) &&
                  d.location.isSome)).map
      (fun d =>
        { did := d.did
          distance := dist lat lon (d.location.getD ⟨0, 0⟩).latitude
                        (d.location.getD ⟨0, 0⟩).longitude }))

/-- handleDriverAvailability: store the availability update if the
sender is in the authorized drivers list (checked first) or the
authorized livreurs list; otherwise drop it. -/
def handleDriverAvailability (validDrivers validLivreurs : List String)
    (drivers : DriversMap) (senderDid : String) (payload : Payload)
    (now : ℕ) : DriversMap :=
  let type? : Option WorkerType :=
    if senderDid ∈ validDrivers then some WorkerType.DRIVERS
    else if senderDid ∈ validLivreurs then some WorkerType.LIVREURS
    else none
  match type? with
  | none => drivers
  | some t =>
      mapSet drivers senderDid
        { did := senderDid
          status := payload.status
          location := payload.location
          lastSeen := now
          type := t }

/-- handleRequest: resolve the origin (with legacy fallback and
JavaScript falsy semantics), drop silently when the origin is missing,
notify the requester when no candidates match, and otherwise store a
fresh PENDING request under the order id. -/
def handleRequest (dist : ℚ → ℚ → ℚ → ℚ → ℚ) (drivers : DriversMap)
    (activeRequests : RequestsMap) (senderDid : String) (payload : Payload)
    (now : ℕ) : RequestsMap × List (String × OutMsg) :=
  let isDelivery := payload.type == "DELIVERY_REQUEST"
  let reqType := if isDelivery then WorkerType.LIVREURS else WorkerType.DRIVERS
  let reqId := payload.orderId
  let reqLat := resolvedLat payload
  let reqLon := resolvedLon payload
  if truthyNum reqLat && truthyNum reqLon then
    let candidates :=
      computeCandidates dist drivers reqType (reqLat.getD 0) (reqLon.getD 0)
    if candidates.isEmpty then
      (activeRequests, [(senderDid, OutMsg.noDriversAvailable reqId)])
    else
      (mapSet activeRequests reqId
        { id := reqId
          type := if isDelivery then ReqKind.DELIVERY else ReqKind.RIDE
          status := ReqStatus.PENDING
          customerDid := senderDid
          candidates := candidates
          nextCandidateIndex := 0
          notifiedDrivers := []
          data := payload
          timestamp := now
          lastNotificationTime := 0 }, [])
  else
    (activeRequests, [])

/-- One scheduler step on a single request: if the request is PENDING
and the dispatch interval has elapsed and a candidate remains, offer it
to the candidate when that worker is currently AVAILABLE (recording the
notification and the offer time and advancing the cursor), and
otherwise merely advance the cursor. -/
def processRequest (drivers : DriversMap) (req : ActiveRequest) (now : ℕ) :
    ActiveRequest × List (String × OutMsg) :=
  if req.status ≠ ReqStatus.PENDING then (req, [])
  else if DISPATCH_INTERVAL_MS ≤ now - req.lastNotificationTime then
    if h : req.nextCandidateIndex < req.candidates.length then
      match mapGet drivers (req.candidates.get ⟨req.nextCandidateIndex, h⟩).did with
      | some driverState =>
          if driverState.status = DriverStatus.AVAILABLE then
            ({ req with
                notifiedDrivers := req.notifiedDrivers ++
                  [(req.candidates.get ⟨req.nextCandidateIndex, h⟩).did]
                lastNotificationTime := now
                nextCandidateIndex := req.nextCandidateIndex + 1 },
             [((req.candidates.get ⟨req.nextCandidateIndex, h⟩).did,
               OutMsg.offer
                 { req.data with
                     type := if req.type = ReqKind.DELIVERY then
                               "DELIVERY_OFFER" else "RIDE_OFFER" })])
          else
            ({ req with nextCandidateIndex := req.nextCandidateIndex + 1 }, [])
      | none =>
          ({ req with nextCandidateIndex := req.nextCandidateIndex + 1 }, [])
    else
      (req, [])
  else
    (req, [])

/-- processRequests: one scheduler tick over the whole request store. -/
def processRequests (drivers : DriversMap) (activeRequests : RequestsMap)
    (now : ℕ) : RequestsMap × List (String × OutMsg) :=
  (activeRequests.map (fun p => (p.1, (processRequest drivers p.2 now).1)),
   (activeRequests.map (fun p => (processRequest drivers p.2 now).2)).flatten)

/-- handleAccept: unknown order ids are only logged (no DM is sent);
an already assigned request answers ORDER_ALREADY_TAKEN; otherwise the
request becomes ASSIGNED and the customer, the losing notified drivers
and the accepting driver are notified in that order. -/
def handleAccept (drivers : DriversMap) (activeRequests : RequestsMap)
    (senderDid : String) (orderId : String) :
    RequestsMap × List (String × OutMsg) :=
  match mapGet activeRequests orderId with
  | none => (activeRequests, [])
  | some req =>
      if req.status ≠ ReqStatus.PENDING then
        (activeRequests, [(senderDid, OutMsg.orderAlreadyTaken orderId)])
      else
        let assigned := { req with status := ReqStatus.ASSIGNED }
        let driverInfo := mapGet drivers senderDid
        (mapSet activeRequests orderId assigned,
         [(req.customerDid,
           OutMsg.orderAssigned orderId senderDid
             (driverInfo.bind (fun d => d.location)))]
         ++ ((req.notifiedDrivers.filter (fun d => d ≠ senderDid)).map
              (fun d => (d, OutMsg.orderTakenByOther orderId)))
         ++ [(senderDid, OutMsg.orderConfirmed orderId req.customerDid req.data)])

/-! ### Map lemmas and request invariants -/

/-- Looking up the key just written returns the written value. -/
theorem mapGet_mapSet_self {α : Type} (m : List (String × α)) (k : String)
    (v : α) : mapGet (mapSet m k v) k = some v := by
  induction m with
  | nil => simp [mapGet, mapSet]
  | cons p t ih =>
    by_cases hp : p.1 == k
    · simp [mapGet, mapSet, hp]
    · simp only [mapSet, hp, Bool.false_eq_true, if_false]
      simpa [mapGet, hp] using ih

/-- Writing one key does not change the value stored at another key. -/
theorem mapGet_mapSet_ne {α : Type} (m : List (String × α)) (k k2 : String)
    (v : α) (h : k ≠ k2) : mapGet (mapSet m k v) k2 = mapGet m k2 := by
  induction m with
  | nil => simp [mapGet, mapSet, h]
  | cons p t ih =>
    by_cases hp : p.1 == k
    · have hpk : p.1 = k := by simpa using hp
      have hp2 : (p.1 == k2) = false := by
        simp [hpk, h]
      simp [mapGet, mapSet, hp, hp2, h]
    · by_cases hp2 : p.1 == k2
      · simp [mapGet, mapSet, hp, hp2]
      · simp only [mapSet, hp, Bool.false_eq_true, if_false]
        simpa [mapGet, hp2] using ih

/-- Lookup commutes with mapping a function over the stored values. -/
theorem mapGet_map {α β : Type} (f : α → β) (m : List (String × α))
    (k : String) :
    mapGet (m.map (fun p => (p.1, f p.2))) k = (mapGet m k).map f := by
  induction m with
  | nil => rfl
  | cons p t ih =>
    by_cases hp : p.1 == k
    · simp [mapGet, hp]
    · simpa [mapGet, hp] using ih

/-- Membership in a take is monotone in the length taken. -/
theorem mem_take_mono {α : Type} :
    ∀ (l : List α) (i j : ℕ), i ≤ j → ∀ a ∈ l.take i, a ∈ l.take j := by
  intro l
  induction l with
  | nil => intro i j _ a ha; simp at ha
  | cons x t ih =>
    intro i j hij a ha
    cases i with
    | zero => simp at ha
    | succ i2 =>
      cases j with
      | zero => omega
      | succ j2 =>
        simp only [List.take_succ_cons, List.mem_cons] at ha ⊢
        rcases ha with ha | ha
        · exact Or.inl ha
        · exact Or.inr (ih i2 j2 (by omega) a ha)

/-- The element at index i belongs to the take of length i + 1. -/
theorem get_mem_take_succ {α : Type} :
    ∀ (l : List α) (i : ℕ) (h : i < l.length), l.get ⟨i, h⟩ ∈ l.take (i + 1) := by
  intro l
  induction l with
  | nil => intro i h; simp at h
  | cons x t ih =>
    intro i h
    cases i with
    | zero => simp
    | succ i2 =>
      simp only [List.take_succ_cons, List.mem_cons]
      exact Or.inr (ih i2 (by simpa using h))

/-- The per-request invariants of the specification: candidates sorted
ascending by distance, cursor bounded by the candidate count, and every
notified worker drawn from the candidates before the cursor. -/
def reqInv (req : ActiveRequest) : Prop :=
  List.Sorted candLE req.candidates ∧
  req.nextCandidateIndex ≤ req.candidates.length ∧
  ∀ d ∈ req.notifiedDrivers,
    d ∈ (req.candidates.take req.nextCandidateIndex).map (fun c => c.did)

/-- The per-request frame relation of the specification between a
request state and its successor: candidates immutable, cursor and last
offer time non-decreasing, and ASSIGNED never reverting. -/
def reqStep (r r2 : ActiveRequest) : Prop :=
  r2.candidates = r.candidates ∧
  r.nextCandidateIndex ≤ r2.nextCandidateIndex ∧
  r.lastNotificationTime ≤ r2.lastNotificationTime ∧
  (r.status = ReqStatus.ASSIGNED → r2.status = ReqStatus.ASSIGNED)

/-- Any request state steps to itself. -/
theorem reqStep_refl (r : ActiveRequest) : reqStep r r :=
  ⟨rfl, le_refl _, le_refl _, fun h => h⟩

/-- One scheduler step on one request respects the frame relation and
preserves the per-request invariants. -/
theorem processRequest_step (drivers : DriversMap) (req : ActiveRequest)
    (now : ℕ) :
    reqStep req (processRequest drivers req now).1 ∧
    (reqInv req → reqInv (processRequest drivers req now).1) := by
  have advStep : reqStep req { req with nextCandidateIndex := req.nextCandidateIndex + 1 } :=
    ⟨rfl, Nat.le_succ _, le_refl _, fun h => h⟩
  have advInv : req.nextCandidateIndex < req.candidates.length →
      reqInv req → reqInv { req with nextCandidateIndex := req.nextCandidateIndex + 1 } := by
    intro hlt hi
    refine ⟨hi.1, Nat.succ_le_of_lt hlt, ?_⟩
    intro d hd
    rcases List.mem_map.mp (hi.2.2 d hd) with ⟨c, hc, hcd⟩
    exact List.mem_map.mpr
      ⟨c, mem_take_mono req.candidates req.nextCandidateIndex
            (req.nextCandidateIndex + 1) (Nat.le_succ _) c hc, hcd⟩
  unfold processRequest
  by_cases hst : req.status ≠ ReqStatus.PENDING
  · rw [if_pos hst]
    exact ⟨reqStep_refl req, fun hi => hi⟩
  · rw [if_neg hst]
    by_cases hint : DISPATCH_INTERVAL_MS ≤ now - req.lastNotificationTime
    · rw [if_pos hint]
      by_cases h : req.nextCandidateIndex < req.candidates.length
      · rw [dif_pos h]
        split
        · rename_i ds hm
          by_cases havail : ds.status = DriverStatus.AVAILABLE
          · rw [if_pos havail]
            have h30 : (30000 : ℕ) ≤ now - req.lastNotificationTime := hint
            constructor
            · refine ⟨rfl, Nat.le_succ _, ?_, fun hA => hA⟩
              show req.lastNotificationTime ≤ now
              omega
            · intro hi
              refine ⟨hi.1, ?_, ?_⟩
              · show req.nextCandidateIndex + 1 ≤ req.candidates.length
                omega
              · intro d hd
                rcases List.mem_append.mp hd with hd2 | hd2
                · rcases List.mem_map.mp (hi.2.2 d hd2) with ⟨c, hc, hcd⟩
                  exact List.mem_map.mpr
                    ⟨c, mem_take_mono req.candidates req.nextCandidateIndex
                          (req.nextCandidateIndex + 1) (Nat.le_succ _) c hc, hcd⟩
                · have hdc : d = (req.candidates.get ⟨req.nextCandidateIndex, h⟩).did := by
                    simpa using hd2
                  exact List.mem_map.mpr
                    ⟨req.candidates.get ⟨req.nextCandidateIndex, h⟩,
                     get_mem_take_succ _ _ h, hdc.symm⟩
          · rw [if_neg havail]
            exact ⟨advStep, advInv h⟩
        · exact ⟨advStep, advInv h⟩
      · rw [dif_neg h]
        exact ⟨reqStep_refl req, fun hi => hi⟩
    · rw [if_neg hint]
      exact ⟨reqStep_refl req, fun hi => hi⟩

/-- Modelled from the standard definition of Math.atan2 (the JavaScript
library function used by getDistance, not code of this repository). -/
noncomputable def atan2 (y x : ℝ) : ℝ :=
  if 0 < x then Real.arctan (y / x)
  else if x < 0 ∧ 0 ≤ y then Real.arctan (y / x) + Real.pi
  else if x < 0 then Real.arctan (y / x) - Real.pi
  else if 0 < y then Real.pi / 2
  else if y < 0 then -(Real.pi / 2)
  else 0

/-- The haversine intermediate value a in getDistance. -/
noncomputable def havA (lat1 lon1 lat2 lon2 : ℝ) : ℝ :=
  Real.sin ((lat2 - lat1) * Real.pi / 180 / 2) *
      Real.sin ((lat2 - lat1) * Real.pi / 180 / 2) +
    Real.cos (lat1 * Real.pi / 180) * Real.cos (lat2 * Real.pi / 180) *
      Real.sin ((lon2 - lon1) * Real.pi / 180 / 2) *
      Real.sin ((lon2 - lon1) * Real.pi / 180 / 2)

/-- getDistance: the haversine great-circle distance with Earth radius
6371e3 metres, modelled over the real numbers. -/
noncomputable def getDistance (lat1 lon1 lat2 lon2 : ℝ) : ℝ :=
  6371000 *
    (2 * atan2 (Real.sqrt (havA lat1 lon1 lat2 lon2))
               (Real.sqrt (1 - havA lat1 lon1 lat2 lon2)))

/-! ### Concrete sample data for witnesses and counterexamples -/

/-- A trivial concrete distance function for instantiating theorems. -/
def distZero : ℚ → ℚ → ℚ → ℚ → ℚ := fun _ _ _ _ => 0

/-- A sample coordinate. -/
def coord11 : Coord := ⟨1, 1⟩

/-- A sample availability payload. -/
def availPayload : Payload :=
  { type := "DRIVER_AVAILABILITY", orderId := "", status := DriverStatus.AVAILABLE,
    location := some ⟨2, 3⟩, pickup := none, deliveryLocation := none }

/-- A sample ride request payload with a valid pickup location. -/
def payloadRide7 : Payload :=
  { type := "RIDE_REQUEST", orderId := "r7", status := DriverStatus.UNAVAILABLE,
    location := none, pickup := some coord11, deliveryLocation := none }

/-- A ride request whose resolved origin latitude is 0. -/
def payloadZeroLat : Payload :=
  { type := "RIDE_REQUEST", orderId := "rz", status := DriverStatus.UNAVAILABLE,
    location := none, pickup := none, deliveryLocation := some ⟨0, 9⟩ }

/-- A ride request whose pickup latitude is 0 but whose legacy
deliveryLocation has a nonzero latitude. -/
def payloadPickupZero : Payload :=
  { type := "RIDE_REQUEST", orderId := "rp", status := DriverStatus.UNAVAILABLE,
    location := none, pickup := some ⟨0, 2⟩, deliveryLocation := some ⟨4, 5⟩ }

/-! ### Claim theorems -/

/-- C2 counterexample: at the concrete input of an accept for the
nonexistent order r9, the handler sends no message at all — in
particular the accepting worker w1 is not sent an unknown/expired order
notification, refuting the claim as stated. -/
theorem c2_counterexample :
    mapGet ([] : RequestsMap) "r9" = none ∧
    (handleAccept ([] : DriversMap) ([] : RequestsMap) "w1" "r9").2 = [] :=
  ⟨rfl, rfl⟩

/-- C2 (amended): for every accept event whose request id does not
exist in the request store, the handler sends no notification (the
event is only logged) and mutates no stored request. -/
theorem c2_unknown_accept (drivers : DriversMap) (reqs : RequestsMap)
    (sender oid : String) (h : mapGet reqs oid = none) :
    handleAccept drivers reqs sender oid = (reqs, []) := by
  unfold handleAccept
  rw [h]

/-- C2 witness: the amended theorem applied at a concrete input. -/
theorem c2_unknown_accept_witness :
    mapGet ([] : RequestsMap) "r0" = none ∧
    handleAccept ([] : DriversMap) ([] : RequestsMap) "w0" "r0" = ([], []) :=
  ⟨rfl, c2_unknown_accept [] [] "w0" "r0" rfl⟩

/-- C7: when the resolved origin coordinates are valid (truthy) and the
computed candidate list is empty, handleRequest stores nothing and
sends the requester exactly one NO_DRIVERS_AVAILABLE message carrying
the order id. -/
theorem c7_empty_match (dist : ℚ → ℚ → ℚ → ℚ → ℚ) (drivers : DriversMap)
    (reqs : RequestsMap) (sender : String) (payload : Payload) (now : ℕ)
    (hlat : truthyNum (resolvedLat payload) = true)
    (hlon : truthyNum (resolvedLon payload) = true)
    (hempty : computeCandidates dist drivers
        (if payload.type = "DELIVERY_REQUEST" then WorkerType.LIVREURS
         else WorkerType.DRIVERS)
        ((resolvedLat payload).getD 0) ((resolvedLon payload).getD 0) = []) :
    handleRequest dist drivers reqs sender payload now =
      (reqs, [(sender, OutMsg.noDriversAvailable payload.orderId)]) := by
  unfold handleRequest
  simp [hlat, hlon, hempty]

/-- C7 witness: the theorem applied at a concrete input with an empty
worker registry. -/
theorem c7_empty_match_witness :
    truthyNum (resolvedLat payloadRide7) = true ∧
    truthyNum (resolvedLon payloadRide7) = true ∧
    computeCandidates distZero []
        (if payloadRide7.type = "DELIVERY_REQUEST" then WorkerType.LIVREURS
         else WorkerType.DRIVERS)
        ((resolvedLat payloadRide7).getD 0) ((resolvedLon payloadRide7).getD 0) = [] ∧
    handleRequest distZero [] [] "cust7" payloadRide7 11 =
      ([], [("cust7", OutMsg.noDriversAvailable "r7")]) :=
  ⟨by decide, by decide, by decide,
   c7_empty_match distZero [] [] "cust7" payloadRide7 11
     (by decide) (by decide) (by decide)⟩

/-- C9: a resolved origin coordinate equal to 0 is falsy in JavaScript,
so the request is dropped with no state change and no notification;
and a pickup latitude equal to 0 makes the resolution fall back to the
legacy deliveryLocation latitude. -/
theorem c9_zero_coordinate :
    (∀ (dist : ℚ → ℚ → ℚ → ℚ → ℚ) (drivers : DriversMap) (reqs : RequestsMap)
       (sender : String) (payload : Payload) (now : ℕ),
       resolvedLat payload = some 0 ∨ resolvedLon payload = some 0 →
       handleRequest dist drivers reqs sender payload now = (reqs, [])) ∧
    (∀ (payload : Payload) (p : Coord), payload.pickup = some p →
       p.latitude = 0 →
       resolvedLat payload = payload.deliveryLocation.map (fun c => c.latitude)) := by
  constructor
  · intro dist drivers reqs sender payload now h
    unfold handleRequest
    rcases h with h | h
    · have hf : truthyNum (resolvedLat payload) = false := by
        rw [h]; rfl
      simp [hf]
    · have hf : truthyNum (resolvedLon payload) = false := by
        rw [h]; rfl
      simp [hf]
  · intro payload p hp hlat
    simp [resolvedLat, jsOr, hp, hlat]

/-- C9 witness: both parts applied at concrete inputs. -/
theorem c9_zero_coordinate_witness :
    resolvedLat payloadZeroLat = some 0 ∧
    handleRequest distZero [] [] "c9s" payloadZeroLat 0 = ([], []) ∧
    payloadPickupZero.pickup = some ⟨0, 2⟩ ∧
    resolvedLat payloadPickupZero =
      payloadPickupZero.deliveryLocation.map (fun c => c.latitude) :=
  ⟨by decide,
   c9_zero_coordinate.1 distZero [] [] "c9s" payloadZeroLat 0 (Or.inl (by decide)),
   by decide,
   c9_zero_coordinate.2 payloadPickupZero ⟨0, 2⟩ (by decide) (by decide)⟩

/-- C10: an availability update from a sender present in both
authorized lists stores the worker with class DRIVERS — the drivers
list is checked first. -/
theorem c10_drivers_precedence (validDrivers validLivreurs : List String)
    (drivers : DriversMap) (sender : String) (payload : Payload) (now : ℕ)
    (hd : sender ∈ validDrivers) (hl : sender ∈ validLivreurs) :
    mapGet (handleDriverAvailability validDrivers validLivreurs drivers
        sender payload now) sender =
      some { did := sender, status := payload.status,
             location := payload.location, lastSeen := now,
             type := WorkerType.DRIVERS } := by
  unfold handleDriverAvailability
  rw [if_pos hd]
  exact mapGet_mapSet_self drivers sender _

/-- C10 witness: the theorem applied at a sender in both lists. -/
theorem c10_drivers_precedence_witness :
    "w" ∈ ["w"] ∧ "w" ∈ ["w", "v"] ∧
    mapGet (handleDriverAvailability ["w"] ["w", "v"] [] "w" availPayload 3) "w" =
      some { did := "w", status := availPayload.status,
             location := availPayload.location, lastSeen := 3,
             type := WorkerType.DRIVERS } :=
  ⟨by decide, by decide,
   c10_drivers_precedence ["w"] ["w", "v"] [] "w" availPayload 3
     (by decide) (by decide)⟩

/-- A PENDING request with two notified workers w1 and w3. -/
def reqC3 : ActiveRequest :=
  { id := "rc3", type := ReqKind.RIDE, status := ReqStatus.PENDING,
    customerDid := "custC", candidates := [⟨"w1", 1⟩, ⟨"w3", 2⟩],
    nextCandidateIndex := 2, notifiedDrivers := ["w1", "w3"],
    data := payloadRide7, timestamp := 0, lastNotificationTime := 40000 }

/-- A store holding only reqC3. -/
def reqsC3 : RequestsMap := [("rc3", reqC3)]

/-- C3: for a PENDING request with notified workers [c1, c3], the first
accept by c3 assigns the request, notifies the customer, sends c1 a
taken-by-other message and c3 a confirmation; the second accept by c1
receives already-taken and changes no stored state. -/
theorem c3_race_free_acceptance (drivers : DriversMap) (reqs : RequestsMap)
    (rid c1 c3 : String) (req : ActiveRequest)
    (hget : mapGet reqs rid = some req)
    (hst : req.status = ReqStatus.PENDING)
    (hnot : req.notifiedDrivers = [c1, c3])
    (hne : c1 ≠ c3) :
    handleAccept drivers reqs c3 rid =
      (mapSet reqs rid { req with status := ReqStatus.ASSIGNED },
       [(req.customerDid,
         OutMsg.orderAssigned rid c3
           ((mapGet drivers c3).bind (fun d => d.location))),
        (c1, OutMsg.orderTakenByOther rid),
        (c3, OutMsg.orderConfirmed rid req.customerDid req.data)]) ∧
    mapGet (mapSet reqs rid { req with status := ReqStatus.ASSIGNED }) rid =
      some { req with status := ReqStatus.ASSIGNED } ∧
    handleAccept drivers (mapSet reqs rid { req with status := ReqStatus.ASSIGNED })
        c1 rid =
      (mapSet reqs rid { req with status := ReqStatus.ASSIGNED },
       [(c1, OutMsg.orderAlreadyTaken rid)]) := by
  have hset := mapGet_mapSet_self reqs rid { req with status := ReqStatus.ASSIGNED }
  refine ⟨?_, hset, ?_⟩
  · unfold handleAccept
    rw [hget]
    simp [hst, hnot, hne]
  · unfold handleAccept
    rw [hset]
    simp

/-- C3 witness: the scenario applied at a concrete store. -/
theorem c3_race_free_acceptance_witness :
    mapGet reqsC3 "rc3" = some reqC3 ∧
    reqC3.status = ReqStatus.PENDING ∧
    reqC3.notifiedDrivers = ["w1", "w3"] ∧
    "w1" ≠ "w3" ∧
    (handleAccept ([] : DriversMap) reqsC3 "w3" "rc3" =
      (mapSet reqsC3 "rc3" { reqC3 with status := ReqStatus.ASSIGNED },
       [(reqC3.customerDid,
         OutMsg.orderAssigned "rc3" "w3"
           ((mapGet ([] : DriversMap) "w3").bind (fun d => d.location))),
        ("w1", OutMsg.orderTakenByOther "rc3"),
        ("w3", OutMsg.orderConfirmed "rc3" reqC3.customerDid reqC3.data)]) ∧
     mapGet (mapSet reqsC3 "rc3" { reqC3 with status := ReqStatus.ASSIGNED }) "rc3" =
       some { reqC3 with status := ReqStatus.ASSIGNED } ∧
     handleAccept ([] : DriversMap)
         (mapSet reqsC3 "rc3" { reqC3 with status := ReqStatus.ASSIGNED }) "w1" "rc3" =
       (mapSet reqsC3 "rc3" { reqC3 with status := ReqStatus.ASSIGNED },
        [("w1", OutMsg.orderAlreadyTaken "rc3")])) :=
  ⟨by decide, rfl, rfl, by decide,
   c3_race_free_acceptance [] reqsC3 "rc3" "w1" "w3" reqC3
     (by decide) rfl rfl (by decide)⟩

/-- C4: on an elapsed tick whose current candidate's worker is missing
from the registry or not AVAILABLE, the scheduler increments only
nextCandidateIndex (lastNotificationTime, status, candidates and
notifiedDrivers unchanged, no message sent); and in all cases the
cursor advances by at most one per tick. -/
theorem c4_skip_unavailable (drivers : DriversMap) (now : ℕ) :
    (∀ (req : ActiveRequest) (c : Candidate),
      req.status = ReqStatus.PENDING →
      DISPATCH_INTERVAL_MS ≤ now - req.lastNotificationTime →
      req.candidates[req.nextCandidateIndex]? = some c →
      (mapGet drivers c.did).all
        (fun ds => ds.status != DriverStatus.AVAILABLE) = true →
      processRequest drivers req now =
        ({ req with nextCandidateIndex := req.nextCandidateIndex + 1 }, [])) ∧
    (∀ req : ActiveRequest,
      (processRequest drivers req now).1.nextCandidateIndex ≤
        req.nextCandidateIndex + 1) ∧
    (∀ (reqs : RequestsMap) (rid : String) (r r2 : ActiveRequest),
      mapGet reqs rid = some r →
      mapGet (processRequests drivers reqs now).1 rid = some r2 →
      r2.nextCandidateIndex ≤ r.nextCandidateIndex + 1) := by
  have hbound : ∀ req : ActiveRequest,
      (processRequest drivers req now).1.nextCandidateIndex ≤
        req.nextCandidateIndex + 1 := by
    intro req
    unfold processRequest
    by_cases hst : req.status ≠ ReqStatus.PENDING
    · rw [if_pos hst]
      exact Nat.le_succ _
    · rw [if_neg hst]
      by_cases hint : DISPATCH_INTERVAL_MS ≤ now - req.lastNotificationTime
      · rw [if_pos hint]
        by_cases h : req.nextCandidateIndex < req.candidates.length
        · rw [dif_pos h]
          split
          · rename_i ds hm
            by_cases havail : ds.status = DriverStatus.AVAILABLE
            · rw [if_pos havail]
            · rw [if_neg havail]
          · exact le_refl _
        · rw [dif_neg h]
          exact Nat.le_succ _
      · rw [if_neg hint]
        exact Nat.le_succ _
  refine ⟨?_, hbound, ?_⟩
  case refine_2 =>
    intro reqs rid r r2 hr hr2
    have hr2m : mapGet (reqs.map
        (fun p => (p.1, (processRequest drivers p.2 now).1))) rid =
        some r2 := hr2
    rw [mapGet_map (fun req => (processRequest drivers req now).1) reqs rid,
        hr] at hr2m
    have hr2e : (processRequest drivers r now).1 = r2 :=
      Option.some.inj hr2m
    rw [← hr2e]
    exact hbound r
  intro req c hst hint hc hna
  have hlt : req.nextCandidateIndex < req.candidates.length := by
    rcases List.getElem?_eq_some.mp hc with ⟨hlt, _⟩
    exact hlt
  have hcel : req.candidates.get ⟨req.nextCandidateIndex, hlt⟩ = c := by
    rcases List.getElem?_eq_some.mp hc with ⟨_, hg⟩
    simpa using hg
  unfold processRequest
  rw [if_neg (by simp [hst]), if_pos hint, dif_pos hlt, hcel]
  cases hm : mapGet drivers c.did with
  | none => rfl
  | some ds =>
    rw [hm] at hna
    have hne : ds.status ≠ DriverStatus.AVAILABLE := by
      simpa using hna
    simp [hne]

/-- A worker currently UNAVAILABLE in the registry. -/
def driverUnavail : DriverState :=
  { status := DriverStatus.UNAVAILABLE, location := some coord11,
    lastSeen := 0, type := WorkerType.DRIVERS, did := "d2" }

/-- A registry holding only the unavailable worker d2. -/
def driversUnavail : DriversMap := [("d2", driverUnavail)]

/-- A PENDING request whose sole candidate is the unavailable d2. -/
def reqC4 : ActiveRequest :=
  { id := "rc4", type := ReqKind.RIDE, status := ReqStatus.PENDING,
    customerDid := "custU", candidates := [⟨"d2", 3⟩],
    nextCandidateIndex := 0, notifiedDrivers := [],
    data := payloadRide7, timestamp := 0, lastNotificationTime := 0 }

/-- C4 witness: the skip behaviour at a concrete registry and request. -/
theorem c4_skip_unavailable_witness :
    reqC4.status = ReqStatus.PENDING ∧
    DISPATCH_INTERVAL_MS ≤ 30000 - reqC4.lastNotificationTime ∧
    reqC4.candidates[reqC4.nextCandidateIndex]? = some ⟨"d2", 3⟩ ∧
    (mapGet driversUnavail (Candidate.mk "d2" 3).did).all
      (fun ds => ds.status != DriverStatus.AVAILABLE) = true ∧
    processRequest driversUnavail reqC4 30000 =
      ({ reqC4 with nextCandidateIndex := reqC4.nextCandidateIndex + 1 }, []) :=
  ⟨rfl, by decide, by decide, by decide,
   (c4_skip_unavailable driversUnavail 30000).1 reqC4 ⟨"d2", 3⟩ rfl
     (by decide) (by decide) (by decide)⟩

/-- Auxiliary: the haversine intermediate value is symmetric in its
two coordinate pairs. -/
theorem havA_symm (lat1 lon1 lat2 lon2 : ℝ) :
    havA lat2 lon2 lat1 lon1 = havA lat1 lon1 lat2 lon2 := by
  unfold havA
  rw [show (lat1 - lat2) * Real.pi / 180 / 2 =
        -((lat2 - lat1) * Real.pi / 180 / 2) by ring,
      show (lon1 - lon2) * Real.pi / 180 / 2 =
        -((lon2 - lon1) * Real.pi / 180 / 2) by ring,
      Real.sin_neg, Real.sin_neg]
  ring

/-- Auxiliary: the haversine intermediate value vanishes on the
diagonal. -/
theorem havA_self (lat lon : ℝ) : havA lat lon lat lon = 0 := by
  unfold havA
  rw [show (lat - lat) * Real.pi / 180 / 2 = 0 by ring,
      show (lon - lon) * Real.pi / 180 / 2 = 0 by ring, Real.sin_zero]
  ring

/-- C8: getDistance is symmetric in its two coordinate pairs and zero
on identical points. -/
theorem c8_distance_symm_zero :
    (∀ lat1 lon1 lat2 lon2 : ℝ,
      getDistance lat1 lon1 lat2 lon2 = getDistance lat2 lon2 lat1 lon1) ∧
    (∀ lat lon : ℝ, getDistance lat lon lat lon = 0) := by
  constructor
  · intro lat1 lon1 lat2 lon2
    unfold getDistance
    rw [havA_symm lat1 lon1 lat2 lon2]
  · intro lat lon
    unfold getDistance
    rw [havA_self, Real.sqrt_zero, sub_zero, Real.sqrt_one]
    unfold atan2
    rw [if_pos one_pos, zero_div, Real.arctan_zero]
    ring

/-- A ride request payload with order id r1 and a valid pickup. -/
def payloadRide1 : Payload :=
  { type := "RIDE_REQUEST", orderId := "r1", status := DriverStatus.UNAVAILABLE,
    location := none, pickup := some coord11, deliveryLocation := none }

/-- An AVAILABLE driver d1. -/
def driverAvail1 : DriverState :=
  { status := DriverStatus.AVAILABLE, location := some coord11,
    lastSeen := 0, type := WorkerType.DRIVERS, did := "d1" }

/-- A registry holding only the available driver d1. -/
def driversAvail1 : DriversMap := [("d1", driverAvail1)]

/-- An ASSIGNED request stored under order id r1, with its offer cursor
already advanced. -/
def reqOld : ActiveRequest :=
  { id := "r1", type := ReqKind.RIDE, status := ReqStatus.ASSIGNED,
    customerDid := "cust1", candidates := [⟨"d1", 0⟩],
    nextCandidateIndex := 1, notifiedDrivers := ["d1"],
    data := payloadRide1, timestamp := 2, lastNotificationTime := 5 }

/-- A store holding only reqOld. -/
def reqsOld : RequestsMap := [("r1", reqOld)]

/-- C1 counterexample: a second request with the already-stored order
id r1 does not fail and does not leave the stored request unchanged —
the stored cursor drops from 1 to 0 and the notified set is reset,
because the handler overwrites the entry with a fresh request. -/
theorem c1_counterexample :
    (mapGet reqsOld "r1").map (fun r => r.nextCandidateIndex) = some 1 ∧
    (mapGet reqsOld "r1").map (fun r => r.notifiedDrivers) = some ["d1"] ∧
    (mapGet (handleRequest distZero driversAvail1 reqsOld "cust2"
        payloadRide1 100).1 "r1").map (fun r => r.nextCandidateIndex) = some 0 ∧
    (mapGet (handleRequest distZero driversAvail1 reqsOld "cust2"
        payloadRide1 100).1 "r1").map (fun r => r.notifiedDrivers) = some [] := by
  decide

/-- The fresh request record that handleRequest stores. -/
def freshRequest (dist : ℚ → ℚ → ℚ → ℚ → ℚ) (drivers : DriversMap)
    (sender : String) (payload : Payload) (now : ℕ) : ActiveRequest :=
  { id := payload.orderId
    type := if payload.type == "DELIVERY_REQUEST" then ReqKind.DELIVERY
            else ReqKind.RIDE
    status := ReqStatus.PENDING
    customerDid := sender
    candidates := computeCandidates dist drivers
      (if payload.type == "DELIVERY_REQUEST" then WorkerType.LIVREURS
       else WorkerType.DRIVERS)
      ((resolvedLat payload).getD 0) ((resolvedLon payload).getD 0)
    nextCandidateIndex := 0
    notifiedDrivers := []
    data := payload
    timestamp := now
    lastNotificationTime := 0 }

/-- C1 (amended): a creation call whose order id is already stored does
not fail with any duplicate error — when the origin is valid and the
candidate list non-empty it silently replaces the stored request with a
fresh PENDING one (cursor 0, empty notified set) and sends nothing. -/
theorem c1_overwrite (dist : ℚ → ℚ → ℚ → ℚ → ℚ) (drivers : DriversMap)
    (reqs : RequestsMap) (sender : String) (payload : Payload) (now : ℕ)
    (r0 : ActiveRequest) (hdup : mapGet reqs payload.orderId = some r0)
    (hlat : truthyNum (resolvedLat payload) = true)
    (hlon : truthyNum (resolvedLon payload) = true)
    (hne : computeCandidates dist drivers
        (if payload.type == "DELIVERY_REQUEST" then WorkerType.LIVREURS
         else WorkerType.DRIVERS)
        ((resolvedLat payload).getD 0) ((resolvedLon payload).getD 0) ≠ []) :
    mapGet (handleRequest dist drivers reqs sender payload now).1
        payload.orderId =
      some (freshRequest dist drivers sender payload now) ∧
    (handleRequest dist drivers reqs sender payload now).2 = [] := by
  have hie : (computeCandidates dist drivers
      (if payload.type == "DELIVERY_REQUEST" then WorkerType.LIVREURS
       else WorkerType.DRIVERS)
      ((resolvedLat payload).getD 0) ((resolvedLon payload).getD 0)).isEmpty
      = false := by
    cases hc : computeCandidates dist drivers
        (if payload.type == "DELIVERY_REQUEST" then WorkerType.LIVREURS
         else WorkerType.DRIVERS)
        ((resolvedLat payload).getD 0) ((resolvedLon payload).getD 0) with
    | nil => exact absurd hc hne
    | cons a t => rfl
  simp only [handleRequest]
  rw [if_pos (show (truthyNum (resolvedLat payload) &&
      truthyNum (resolvedLon payload)) = true by rw [hlat, hlon]; rfl)]
  rw [if_neg (show ¬((computeCandidates dist drivers
      (if payload.type == "DELIVERY_REQUEST" then WorkerType.LIVREURS
       else WorkerType.DRIVERS)
      ((resolvedLat payload).getD 0)
      ((resolvedLon payload).getD 0)).isEmpty = true) by simpa using hne)]
  exact ⟨mapGet_mapSet_self reqs payload.orderId _, rfl⟩

/-- C1 witness: the amended theorem applied at the r1 scenario. -/
theorem c1_overwrite_witness :
    mapGet reqsOld "r1" = some reqOld ∧
    truthyNum (resolvedLat payloadRide1) = true ∧
    truthyNum (resolvedLon payloadRide1) = true ∧
    computeCandidates distZero driversAvail1
        (if payloadRide1.type == "DELIVERY_REQUEST" then WorkerType.LIVREURS
         else WorkerType.DRIVERS)
        ((resolvedLat payloadRide1).getD 0) ((resolvedLon payloadRide1).getD 0)
      ≠ [] ∧
    (mapGet (handleRequest distZero driversAvail1 reqsOld "cust2"
        payloadRide1 100).1 payloadRide1.orderId =
      some (freshRequest distZero driversAvail1 "cust2" payloadRide1 100) ∧
     (handleRequest distZero driversAvail1 reqsOld "cust2" payloadRide1 100).2
       = []) :=
  ⟨by decide, by decide, by decide, by decide,
   c1_overwrite distZero driversAvail1 reqsOld "cust2" payloadRide1 100 reqOld
     (by decide) (by decide) (by decide) (by decide)⟩

/-- A delivery payload with order id q1 and a legacy delivery location. -/
def payloadDel1 : Payload :=
  { type := "DELIVERY_REQUEST", orderId := "q1",
    status := DriverStatus.UNAVAILABLE, location := none,
    pickup := none, deliveryLocation := some coord11 }

/-- An AVAILABLE livreur l1. -/
def livreurL1 : DriverState :=
  { status := DriverStatus.AVAILABLE, location := some coord11,
    lastSeen := 0, type := WorkerType.LIVREURS, did := "l1" }

/-- A registry holding only the available livreur l1. -/
def driversLivreur : DriversMap := [("l1", livreurL1)]

/-- An ASSIGNED delivery request stored under order id q1. -/
def reqOldD : ActiveRequest :=
  { id := "q1", type := ReqKind.DELIVERY, status := ReqStatus.ASSIGNED,
    customerDid := "custD", candidates := [⟨"l1", 0⟩],
    nextCandidateIndex := 1, notifiedDrivers := ["l1"],
    data := payloadDel1, timestamp := 1, lastNotificationTime := 7 }

/-- A store holding only reqOldD. -/
def reqsOldD : RequestsMap := [("q1", reqOldD)]

/-- C5 counterexample: request creation does not preserve the stated
invariants for every stored request — a duplicate creation on the
ASSIGNED request q1 reverts its stored status to PENDING. -/
theorem c5_counterexample :
    (mapGet reqsOldD "q1").map (fun r => r.status) = some ReqStatus.ASSIGNED ∧
    (mapGet (handleRequest distZero driversLivreur reqsOldD "custD"
        payloadDel1 50).1 "q1").map (fun r => r.status) =
      some ReqStatus.PENDING := by
  decide

/-- The freshly stored request satisfies the structural invariants. -/
theorem freshRequest_inv (dist : ℚ → ℚ → ℚ → ℚ → ℚ) (drivers : DriversMap)
    (sender : String) (payload : Payload) (now : ℕ) :
    reqInv (freshRequest dist drivers sender payload now) := by
  refine ⟨?_, Nat.zero_le _, ?_⟩
  · show List.Sorted candLE (computeCandidates dist drivers
      (if payload.type == "DELIVERY_REQUEST" then WorkerType.LIVREURS
       else WorkerType.DRIVERS)
      ((resolvedLat payload).getD 0) ((resolvedLon payload).getD 0))
    unfold computeCandidates
    exact List.sorted_insertionSort candLE _
  · intro d hd
    simp [freshRequest] at hd

/-- The request store after handleRequest is either unchanged or the
original store with a fresh request written under the order id. -/
theorem handleRequest_store_cases (dist : ℚ → ℚ → ℚ → ℚ → ℚ)
    (drivers : DriversMap) (reqs : RequestsMap) (sender : String)
    (payload : Payload) (now : ℕ) :
    (handleRequest dist drivers reqs sender payload now).1 = reqs ∨
    (handleRequest dist drivers reqs sender payload now).1 =
      mapSet reqs payload.orderId
        (freshRequest dist drivers sender payload now) := by
  simp only [handleRequest]
  by_cases hg : (truthyNum (resolvedLat payload) &&
      truthyNum (resolvedLon payload)) = true
  · rw [if_pos hg]
    by_cases he : (computeCandidates dist drivers
        (if payload.type == "DELIVERY_REQUEST" then WorkerType.LIVREURS
         else WorkerType.DRIVERS)
        ((resolvedLat payload).getD 0) ((resolvedLon payload).getD 0)).isEmpty
        = true
    · rw [if_pos he]
      exact Or.inl rfl
    · rw [if_neg he]
      exact Or.inr rfl
  · rw [if_neg hg]
    exact Or.inl rfl

/-- C5 (amended): the scheduler tick and accept handling preserve, for
every stored request, the frame relation (candidates immutable, cursor
and last offer time non-decreasing, ASSIGNED never reverting) and the
structural invariants; request creation leaves every other stored
request unchanged, and any request it stores satisfies the structural
invariants — but, as the counterexample shows, creation with an
already-stored id replaces that request and can decrease its cursor and
revert ASSIGNED to PENDING. -/
theorem c5_invariants (dist : ℚ → ℚ → ℚ → ℚ → ℚ) (drivers : DriversMap) :
    (∀ (now : ℕ) (reqs : RequestsMap) (rid : String) (r r2 : ActiveRequest),
       mapGet reqs rid = some r →
       mapGet (processRequests drivers reqs now).1 rid = some r2 →
       reqStep r r2 ∧ (reqInv r → reqInv r2)) ∧
    (∀ (reqs : RequestsMap) (sender oid rid : String) (r r2 : ActiveRequest),
       mapGet reqs rid = some r →
       mapGet (handleAccept drivers reqs sender oid).1 rid = some r2 →
       reqStep r r2 ∧ (reqInv r → reqInv r2)) ∧
    (∀ (reqs : RequestsMap) (sender : String) (payload : Payload) (now : ℕ)
       (rid : String) (r2 : ActiveRequest),
       mapGet (handleRequest dist drivers reqs sender payload now).1 rid =
         some r2 →
       mapGet reqs rid = some r2 ∨ reqInv r2) := by
  refine ⟨?_, ?_, ?_⟩
  · intro now reqs rid r r2 hr hr2
    have hr2m : mapGet (reqs.map
        (fun p => (p.1, (processRequest drivers p.2 now).1))) rid =
        some r2 := hr2
    rw [mapGet_map (fun req => (processRequest drivers req now).1) reqs rid,
        hr] at hr2m
    have hr2e : (processRequest drivers r now).1 = r2 :=
      Option.some.inj hr2m
    rw [← hr2e]
    exact processRequest_step drivers r now
  · intro reqs sender oid rid r r2 hr hr2
    unfold handleAccept at hr2
    split at hr2
    · rename_i hm
      have hr2e : mapGet reqs rid = some r2 := hr2
      rw [hr] at hr2e
      obtain rfl : r = r2 := Option.some.inj hr2e
      exact ⟨reqStep_refl r, fun hi => hi⟩
    · rename_i req hm
      split at hr2
      · rename_i hst
        have hr2e : mapGet reqs rid = some r2 := hr2
        rw [hr] at hr2e
        obtain rfl : r = r2 := Option.some.inj hr2e
        exact ⟨reqStep_refl r, fun hi => hi⟩
      · rename_i hst
        have hr2e : mapGet (mapSet reqs oid
            { req with status := ReqStatus.ASSIGNED }) rid = some r2 := hr2
        by_cases hoid : oid = rid
        · subst hoid
          rw [mapGet_mapSet_self] at hr2e
          obtain rfl : { req with status := ReqStatus.ASSIGNED } = r2 :=
            Option.some.inj hr2e
          rw [hm] at hr
          obtain rfl : req = r := Option.some.inj hr
          constructor
          · exact ⟨rfl, le_refl _, le_refl _, fun _ => rfl⟩
          · intro hi
            exact ⟨hi.1, hi.2.1, hi.2.2⟩
        · rw [mapGet_mapSet_ne reqs oid rid _ hoid] at hr2e
          rw [hr] at hr2e
          obtain rfl : r = r2 := Option.some.inj hr2e
          exact ⟨reqStep_refl r, fun hi => hi⟩
  · intro reqs sender payload now rid r2 hr2
    rcases handleRequest_store_cases dist drivers reqs sender payload now with
      hcase | hcase
    · rw [hcase] at hr2
      exact Or.inl hr2
    · rw [hcase] at hr2
      by_cases hoid : payload.orderId = rid
      · subst hoid
        rw [mapGet_mapSet_self] at hr2
        obtain rfl : freshRequest dist drivers sender payload now = r2 :=
          Option.some.inj hr2
        exact Or.inr (freshRequest_inv dist drivers sender payload now)
      · rw [mapGet_mapSet_ne reqs payload.orderId rid _ hoid] at hr2
        exact Or.inl hr2

/-- A PENDING request for d1 that is due for its first offer. -/
def reqPend : ActiveRequest :=
  { id := "rp1", type := ReqKind.RIDE, status := ReqStatus.PENDING,
    customerDid := "custP", candidates := [⟨"d1", 0⟩],
    nextCandidateIndex := 0, notifiedDrivers := [],
    data := payloadRide1, timestamp := 0, lastNotificationTime := 0 }

/-- A store holding only reqPend. -/
def reqsPend : RequestsMap := [("rp1", reqPend)]

/-- The state of reqPend after the tick that offers it to d1. -/
def reqPendAfter : ActiveRequest :=
  { reqPend with
    notifiedDrivers := ["d1"],
    lastNotificationTime := 30000,
    nextCandidateIndex := 1 }

/-- C5 witness: the scheduler-tick conjunct applied at a concrete store
where the tick offers the request to d1. -/
theorem c5_invariants_witness :
    mapGet reqsPend "rp1" = some reqPend ∧
    mapGet (processRequests driversAvail1 reqsPend 30000).1 "rp1" =
      some reqPendAfter ∧
    (reqStep reqPend reqPendAfter ∧
     (reqInv reqPend → reqInv reqPendAfter)) :=
  ⟨by decide, by decide,
   (c5_invariants distZero driversAvail1).1 30000 reqsPend "rp1" reqPend
     reqPendAfter (by decide) (by decide)⟩

/-- C6: the computed candidate list is sorted non-decreasingly by
distance, is a permutation of the filtered-and-mapped registry values,
and contains exactly the available, located workers of the requested
class, each paired with its distance from the origin. -/
theorem c6_compute_candidates (dist : ℚ → ℚ → ℚ → ℚ → ℚ)
    (drivers : DriversMap) (reqType : WorkerType) (lat lon : ℚ) :
    List.Sorted candLE (computeCandidates dist drivers reqType lat lon) ∧
    List.Perm (computeCandidates dist drivers reqType lat lon)
      (((drivers.map (fun p => p.2)).filter
        (fun d => decide (d.type = reqType) &&
                  decide (d.status = DriverStatus.AVAILABLE) &&
                  d.location.isSome)).map
        (fun d =>
          { did := d.did
            distance := dist lat lon (d.location.getD ⟨0, 0⟩).latitude
                          (d.location.getD ⟨0, 0⟩).longitude })) ∧
    ∀ c : Candidate,
      c ∈ computeCandidates dist drivers reqType lat lon ↔
      ∃ d : DriverState, d ∈ drivers.map (fun p => p.2) ∧
        d.type = reqType ∧ d.status = DriverStatus.AVAILABLE ∧
        ∃ loc : Coord, d.location = some loc ∧
          c = { did := d.did,
                distance := dist lat lon loc.latitude loc.longitude } := by
  refine ⟨?_, ?_, ?_⟩
  · unfold computeCandidates
    exact List.sorted_insertionSort candLE _
  · unfold computeCandidates
    exact List.perm_insertionSort candLE _
  · intro c
    unfold computeCandidates
    rw [List.mem_insertionSort]
    simp only [List.mem_map, List.mem_filter, Bool.and_eq_true,
      decide_eq_true_eq, Option.isSome_iff_exists]
    constructor
    · rintro ⟨d, ⟨hmem, ⟨⟨hty, hst⟩, ⟨loc, hloc⟩⟩⟩, rfl⟩
      refine ⟨d, hmem, hty, hst, loc, hloc, ?_⟩
      simp [hloc]
    · rintro ⟨d, hmem, hty, hst, loc, hloc, rfl⟩
      refine ⟨d, ⟨hmem, ⟨⟨hty, hst⟩, ⟨loc, hloc⟩⟩⟩, ?_⟩
      simp [hloc]

end Dispatcher
